import Mathlib

/-!
Shallow embedding of `src/main.py` (agentic-learner): the session data model,
the pure evaluation scoring of `EvaluatorAgent.evaluate`, the quiz-response
parsing of `QuizGeneratorAgent.generate_quiz`, and the state handlers of
`LearningStateMachine`, with external model/video calls represented as oracle
parameters and an explicit trace of issued external calls.
-/

/-- The `AppState` enum from `main.py` (string-valued Python enum). -/
inductive AppState
  | topic_input
  | fetch_content
  | learning
  | generate_quiz
  | take_quiz
  | evaluate
deriving DecidableEq, Repr

/-- The `.value` of each `AppState` member, as in the Python enum. -/
def AppState.value : AppState → String
  | .topic_input => "topic_input"
  | .fetch_content => "fetch_content"
  | .learning => "learning"
  | .generate_quiz => "generate_quiz"
  | .take_quiz => "take_quiz"
  | .evaluate => "evaluate"

/-- A video record as built by `VideoRetrieverAgent.fetch_videos`. -/
structure Video where
  title : String
  link : String
  video_id : String
  channel : String
deriving DecidableEq, Repr

/-- A quiz question record, the element shape of the JSON array that
`QuizGeneratorAgent.generate_quiz` asks the model for:
`{question, options[4], correct, explanation}`. -/
structure Question where
  question : String
  options : List String
  correct : Int
  explanation : String
deriving DecidableEq, Repr

/-- The `SessionData` dataclass from `main.py`, with the `__post_init__` `None` defaults
already resolved to empty containers (the dataclass never stores `None`
after construction). `user_answers` is the Python dict mapping question
index to selected option index, embedded as an association list;
`chat_history` entries are `(question, answer)` pairs. -/
structure SessionData where
  current_step : String
  topic : String
  videos : List Video
  current_video_index : Int
  documentation : String
  quiz : List Question
  user_answers : List (Nat × Int)
  weak_areas : List String
  quiz_attempt : Int
  mastery_achieved : Bool
  chat_history : List (String × String)
  related_topics : List String
deriving DecidableEq, Repr

/-- The default `SessionData()` (dataclass defaults plus `__post_init__`). -/
def defaultSession : SessionData where
  current_step := AppState.topic_input.value
  topic := ""
  videos := []
  current_video_index := 0
  documentation := ""
  quiz := []
  user_answers := []
  weak_areas := []
  quiz_attempt := 1
  mastery_achieved := false
  chat_history := []
  related_topics := []

/-- Python `d.get(k, default)` on the embedded answers dict. -/
def dictGetD (d : List (Nat × Int)) (k : Nat) (dflt : Int) : Int :=
  match d.find? (fun p => p.1 == k) with
  | some p => p.2
  | none => dflt

namespace EvaluatorAgent

/-- The result dict returned by `EvaluatorAgent.evaluate`. The percentage is
a rational, embedding Python's `correct_count / total * 100`. -/
structure EvalResult where
  score : Nat
  total : Nat
  percentage : ℚ
  mastery : Bool
  feedback : String
  weak_areas : List String
deriving DecidableEq, Repr

/-- The `for i, q in enumerate(quiz)` loop body of `evaluate`: counts the
questions whose recorded answer (`answers.get(i, -1)`) equals the correct
index and collects, in order, the question texts of the others. -/
def evalLoop (answers : List (Nat × Int)) : List (Nat × Question) → Nat × List String
  | [] => (0, [])
  | (i, q) :: rest =>
    let p := evalLoop answers rest
    if dictGetD answers i (-1) == q.correct then (p.1 + 1, p.2) else (p.1, q.question :: p.2)

/-- The method `EvaluatorAgent.evaluate`. The model-generated feedback text is an
oracle parameter (`feedbackContent`); `documentation` only feeds the
feedback prompt and does not affect the scoring. -/
def evaluate (quiz : List Question) (answers : List (Nat × Int))
    (documentation feedbackContent : String) : EvalResult :=
  let p := evalLoop answers quiz.enum
  let correct_count := p.1
  let weak_topics := p.2
  let total := quiz.length
  let score_percent : ℚ := if 0 < total then (correct_count : ℚ) / (total : ℚ) * 100 else 0
  let mastery : Bool := decide ((80 : ℚ) ≤ score_percent)
  { score := correct_count
    total := total
    percentage := score_percent
    mastery := mastery
    feedback := feedbackContent
    weak_areas := weak_topics }

end EvaluatorAgent

namespace QuizGeneratorAgent

/-- A model response: `response.content` may be missing (`None`). -/
structure ModelResponse where
  content : Option String
deriving Repr

/-- The code-fence stripping done by `generate_quiz` before `json.loads`:
strip whitespace; if the text starts with a fence, take the segment between
the first pair of fence markers (Python `content.split(...)[1]`, total on
this path because the text starts with the marker) and drop a leading
"json" tag; strip again. -/
def stripFence (content : String) : String :=
  let c := content.trim
  let c :=
    if c.startsWith "```" then
      let c1 := (c.splitOn "```").getD 1 ""
      if c1.startsWith "json" then c1.drop 4 else c1
    else c
  c.trim

/-- The method `QuizGeneratorAgent.generate_quiz` after the model call. `parse` is the
oracle for `json.loads` (specialised to the expected question-array shape;
`none` embeds any raised parse error). Returns the quiz list together with
a flag recording whether an error was reported via `st.error`. -/
def generate_quiz (parse : String → Option (List Question))
    (resp : ModelResponse) : List Question × Bool :=
  match resp.content with
  | none => ([], true)
  | some content =>
    match parse (stripFence content) with
    | none => ([], true)
    | some quiz_data => (quiz_data, false)

end QuizGeneratorAgent

/-- The external calls a state handler can issue, recorded as a trace. -/
inductive ExtCall
  | refineTopic (userInput : String)
  | fetchVideos (topic : String) (limit : Nat)
  | generateDocs (topic : String)
  | generateQuizCall (documentation : String) (weakAreas : Option (List String))
  | evalFeedback
  | relatedTopicsCall (topic documentation : String)
  | answerQuestionCall (question : String)
deriving DecidableEq, Repr

namespace LearningStateMachine

/-- The handler `handle_fetch_content`: fetch videos only when the list is empty (Python
falsy check), generate documentation only when the string is empty, then
transition to `LEARNING`. The oracle arguments stand for the results of the
external calls; the second component is the trace of calls issued. -/
def handle_fetch_content (fetchedVideos : List Video) (generatedDocs : String)
    (s : SessionData) : SessionData × List ExtCall :=
  let p1 :=
    if s.videos = [] then
      ({ s with videos := fetchedVideos, current_video_index := 0 },
        [ExtCall.fetchVideos s.topic 10])
    else (s, [])
  let p2 :=
    if p1.1.documentation = "" then
      ({ p1.1 with documentation := generatedDocs }, [ExtCall.generateDocs p1.1.topic])
    else (p1.1, [])
  ({ p2.1 with current_step := AppState.learning.value }, p1.2 ++ p2.2)

/-- The "Previous Video" button of `_render_study_material`:
`(index - 1) % len(videos)` with Python `%` (sign of the divisor), embedded
as `Int.emod`. Rendered only when `videos` is non-empty. -/
def prevVideo (s : SessionData) : SessionData :=
  if s.videos = [] then s
  else { s with current_video_index := (s.current_video_index - 1) % (s.videos.length : Int) }

/-- The "Next Video" button of `_render_study_material`:
`(index + 1) % len(videos)`. -/
def nextVideo (s : SessionData) : SessionData :=
  if s.videos = [] then s
  else { s with current_video_index := (s.current_video_index + 1) % (s.videos.length : Int) }

/-- The handler `handle_generate_quiz`: pass the stored weak areas when non-empty
(Python falsy check turns `[]` into `None`), store the generated quiz,
clear `user_answers`, transition to `TAKE_QUIZ`. -/
def handle_generate_quiz (generatedQuiz : List Question) (s : SessionData) :
    SessionData × List ExtCall :=
  let weak_areas_to_pass := if s.weak_areas = [] then none else some s.weak_areas
  ({ s with quiz := generatedQuiz
            user_answers := []
            current_step := AppState.take_quiz.value },
    [ExtCall.generateQuizCall s.documentation weak_areas_to_pass])

/-- The handler `handle_take_quiz` on form submission: the radio selections become
`user_answers` and the machine transitions to `EVALUATE`. -/
def handle_take_quiz (answers : List (Nat × Int)) (s : SessionData) : SessionData :=
  { s with user_answers := answers, current_step := AppState.evaluate.value }

/-- The helper `_render_retry_section` (non-mastery path of `_render_quiz_results`):
store `results["weak_areas"][:3]` and increment `quiz_attempt`. -/
def renderRetrySection (results : EvaluatorAgent.EvalResult) (s : SessionData) :
    SessionData :=
  { s with weak_areas := results.weak_areas.take 3
           quiz_attempt := s.quiz_attempt + 1 }

/-- The handler `handle_evaluate`: score the stored quiz and answers; on mastery with
still-empty `related_topics`, fetch related topics; then render the results
(the retry section mutates the session on the non-mastery path). Oracle
arguments stand for the feedback text and the related-topics result. -/
def handle_evaluate (feedbackContent : String) (relatedOracle : List String)
    (s : SessionData) : SessionData × List ExtCall :=
  let results := EvaluatorAgent.evaluate s.quiz s.user_answers s.documentation feedbackContent
  let p1 :=
    if results.mastery ∧ s.related_topics = [] then
      ({ s with related_topics := relatedOracle },
        [ExtCall.relatedTopicsCall s.topic s.documentation])
    else (s, [])
  if results.mastery then (p1.1, ExtCall.evalFeedback :: p1.2)
  else (renderRetrySection results p1.1, ExtCall.evalFeedback :: p1.2)

/-- The user/system events that drive the state machine, each carrying the
oracle results of the external calls its handler makes. -/
inductive Event
  | topicSubmit (userInput refinedTopic : String)
  | fetchContent (fetchedVideos : List Video) (generatedDocs : String)
  | nextVideoClick
  | prevVideoClick
  | chatAsk (question answer : String)
  | takeQuizClick
  | generateQuizEvent (generatedQuiz : List Question)
  | quizSubmit (answers : List (Nat × Int))
  | evaluateEvent (feedbackContent : String) (relatedOracle : List String)
  | retakeQuizClick
  | studyAgainClick
  | learnRelatedClick (relatedTopic : String)
  | resetClick
deriving Repr

/-- One step of the state machine: dispatch an event to its handler and
return the new session together with the trace of external calls issued.
`learnRelatedClick` and `resetClick` are `reset_state()` followed by
re-initialisation to the dataclass defaults (the "Learn" button also sets
the step and topic before the rerun). -/
def step (s : SessionData) : Event → SessionData × List ExtCall
  | .topicSubmit userInput refinedTopic =>
    ({ s with topic := refinedTopic, current_step := AppState.fetch_content.value },
      [ExtCall.refineTopic userInput])
  | .fetchContent fetchedVideos generatedDocs => handle_fetch_content fetchedVideos generatedDocs s
  | .nextVideoClick => (nextVideo s, [])
  | .prevVideoClick => (prevVideo s, [])
  | .chatAsk question answer =>
    ({ s with chat_history := s.chat_history ++ [(question, answer)] },
      [ExtCall.answerQuestionCall question])
  | .takeQuizClick => ({ s with current_step := AppState.generate_quiz.value }, [])
  | .generateQuizEvent generatedQuiz => handle_generate_quiz generatedQuiz s
  | .quizSubmit answers => (handle_take_quiz answers s, [])
  | .evaluateEvent feedbackContent relatedOracle => handle_evaluate feedbackContent relatedOracle s
  | .retakeQuizClick => ({ s with current_step := AppState.generate_quiz.value }, [])
  | .studyAgainClick => ({ s with current_step := AppState.learning.value }, [])
  | .learnRelatedClick relatedTopic =>
    ({ defaultSession with current_step := AppState.fetch_content.value, topic := relatedTopic },
      [])
  | .resetClick => (defaultSession, [])

/-- Applying the "Next Video" button as a plain state transformer
(the event issues no external calls). -/
def stepNext (s : SessionData) : SessionData := (step s Event.nextVideoClick).1

end LearningStateMachine

/-! Concrete sample inputs used by the witness theorems. -/

/-- A one-question sample quiz. -/
def sampleQuiz1 : List Question :=
  [{ question := "What is a binary search?"
     options := ["A", "B", "C", "D"]
     correct := 0
     explanation := "e1" }]

/-- A five-question sample quiz (the shape the generator is prompted for). -/
def sampleQuiz5 : List Question :=
  [{ question := "Q0", options := ["A", "B", "C", "D"], correct := 0, explanation := "e0" },
   { question := "Q1", options := ["A", "B", "C", "D"], correct := 1, explanation := "e1" },
   { question := "Q2", options := ["A", "B", "C", "D"], correct := 2, explanation := "e2" },
   { question := "Q3", options := ["A", "B", "C", "D"], correct := 3, explanation := "e3" },
   { question := "Q4", options := ["A", "B", "C", "D"], correct := 0, explanation := "e4" }]

/-- Answers scoring 2/5 on `sampleQuiz5` (indices 0 and 1 right, rest wrong). -/
def sampleAnswers2of5 : List (Nat × Int) :=
  [(0, 0), (1, 1), (2, 0), (3, 0), (4, 1)]

/-- Two sample videos. -/
def sampleVideos : List Video :=
  [{ title := "v0", link := "l0", video_id := "id0", channel := "c0" },
   { title := "v1", link := "l1", video_id := "id1", channel := "c1" }]

/-- A session in the `EVALUATE` state about to fail the quiz (2/5 correct). -/
def sampleFailSession : SessionData :=
  { defaultSession with
      current_step := AppState.evaluate.value
      topic := "Binary Search"
      videos := sampleVideos
      documentation := "docs"
      quiz := sampleQuiz5
      user_answers := sampleAnswers2of5 }

/-- A session whose content is already fetched and whose related topics are
already populated. -/
def samplePopulatedSession : SessionData :=
  { sampleFailSession with related_topics := ["Topic A"] }

theorem evalLoop_fst (answers : List (Nat × Int)) (l : List (Nat × Question)) :
    (EvaluatorAgent.evalLoop answers l).1 =
      l.countP (fun p => dictGetD answers p.1 (-1) == p.2.correct) := by
  induction l with
  | nil => rfl
  | cons hd tl ih =>
    obtain ⟨i, q⟩ := hd
    by_cases h : dictGetD answers i (-1) == q.correct <;>
      simp [EvaluatorAgent.evalLoop, List.countP_cons, h, ih]

theorem evalLoop_snd (answers : List (Nat × Int)) (l : List (Nat × Question)) :
    (EvaluatorAgent.evalLoop answers l).2 =
      (l.filter (fun p => dictGetD answers p.1 (-1) != p.2.correct)).map
        (fun p => p.2.question) := by
  induction l with
  | nil => rfl
  | cons hd tl ih =>
    obtain ⟨i, q⟩ := hd
    by_cases h : dictGetD answers i (-1) == q.correct <;>
      simp [EvaluatorAgent.evalLoop, List.filter_cons, h, bne, ih]

theorem evalLoop_partition (answers : List (Nat × Int)) (l : List (Nat × Question)) :
    (EvaluatorAgent.evalLoop answers l).1 + (EvaluatorAgent.evalLoop answers l).2.length
      = l.length := by
  induction l with
  | nil => rfl
  | cons hd tl ih =>
    obtain ⟨i, q⟩ := hd
    by_cases h : dictGetD answers i (-1) == q.correct <;>
      simp [EvaluatorAgent.evalLoop, h] <;> omega

/-- C1: for every quiz and answer mapping with `total = length quiz > 0`,
`EvaluatorAgent.evaluate` returns a score counting the indices `i` with
`answers.get(i, -1) == quiz[i].correct`, a percentage equal to
`100 * score / total`, and mastery exactly when the percentage is at
least 80. -/
theorem evaluate_scoring_spec (quiz : List Question) (answers : List (Nat × Int))
    (documentation feedbackContent : String) (h : 0 < quiz.length) :
    (EvaluatorAgent.evaluate quiz answers documentation feedbackContent).score
        = quiz.enum.countP (fun p => dictGetD answers p.1 (-1) == p.2.correct)
    ∧ (EvaluatorAgent.evaluate quiz answers documentation feedbackContent).percentage
        = 100 * ((EvaluatorAgent.evaluate quiz answers documentation feedbackContent).score : ℚ)
            / ((EvaluatorAgent.evaluate quiz answers documentation feedbackContent).total : ℚ)
    ∧ ((EvaluatorAgent.evaluate quiz answers documentation feedbackContent).mastery = true
        ↔ (80 : ℚ) ≤ (EvaluatorAgent.evaluate quiz answers documentation feedbackContent).percentage) := by
  refine ⟨?_, ?_, ?_⟩
  · simpa [EvaluatorAgent.evaluate] using evalLoop_fst answers quiz.enum
  · simp only [EvaluatorAgent.evaluate, if_pos h]
    ring
  · simp [EvaluatorAgent.evaluate]

/-- Witness for C1 at a concrete one-question quiz answered correctly. -/
theorem evaluate_scoring_spec_witness :
    0 < sampleQuiz1.length
    ∧ ((EvaluatorAgent.evaluate sampleQuiz1 [(0, 0)] "d" "f").score
          = sampleQuiz1.enum.countP (fun p => dictGetD [(0, 0)] p.1 (-1) == p.2.correct)
        ∧ (EvaluatorAgent.evaluate sampleQuiz1 [(0, 0)] "d" "f").percentage
            = 100 * ((EvaluatorAgent.evaluate sampleQuiz1 [(0, 0)] "d" "f").score : ℚ)
                / ((EvaluatorAgent.evaluate sampleQuiz1 [(0, 0)] "d" "f").total : ℚ)
        ∧ ((EvaluatorAgent.evaluate sampleQuiz1 [(0, 0)] "d" "f").mastery = true
            ↔ (80 : ℚ) ≤ (EvaluatorAgent.evaluate sampleQuiz1 [(0, 0)] "d" "f").percentage)) :=
  ⟨by decide, evaluate_scoring_spec sampleQuiz1 [(0, 0)] "d" "f" (by decide)⟩

/-- C2: evaluating an empty quiz (so `total == 0`) under any answer mapping
takes the guarded branch: the percentage is 0 and mastery is false, with no
division by zero. -/
theorem evaluate_empty_quiz (answers : List (Nat × Int))
    (documentation feedbackContent : String) :
    (EvaluatorAgent.evaluate [] answers documentation feedbackContent).total = 0
    ∧ (EvaluatorAgent.evaluate [] answers documentation feedbackContent).percentage = 0
    ∧ (EvaluatorAgent.evaluate [] answers documentation feedbackContent).mastery = false := by
  refine ⟨rfl, ?_, ?_⟩ <;> norm_num [EvaluatorAgent.evaluate, EvaluatorAgent.evalLoop]

/-- C3: the `weak_areas` returned by `EvaluatorAgent.evaluate` are exactly
the question texts at the indices `i` where `answers.get(i, -1)` differs
from `quiz[i].correct`, kept in quiz order. -/
theorem evaluate_weak_areas (quiz : List Question) (answers : List (Nat × Int))
    (documentation feedbackContent : String) :
    (EvaluatorAgent.evaluate quiz answers documentation feedbackContent).weak_areas
      = (quiz.enum.filter (fun p => dictGetD answers p.1 (-1) != p.2.correct)).map
          (fun p => p.2.question) := by
  simpa [EvaluatorAgent.evaluate] using evalLoop_snd answers quiz.enum

/-- C10: `EvaluatorAgent.evaluate` partitions the quiz: the score plus the
number of weak areas equals the total, since every question is counted as
correct or appended to the weak list, never both nor neither. -/
theorem evaluate_partition (quiz : List Question) (answers : List (Nat × Int))
    (documentation feedbackContent : String) :
    (EvaluatorAgent.evaluate quiz answers documentation feedbackContent).score
        + (EvaluatorAgent.evaluate quiz answers documentation feedbackContent).weak_areas.length
      = (EvaluatorAgent.evaluate quiz answers documentation feedbackContent).total := by
  have h := evalLoop_partition answers quiz.enum
  simpa [EvaluatorAgent.evaluate] using h

/-- C9: `QuizGeneratorAgent.generate_quiz` returns the empty list and
reports an error exactly when the response content is missing or the
fence-stripped content fails to parse as the question array; it never
raises. -/
theorem generate_quiz_error_handling (parse : String → Option (List Question))
    (resp : QuizGeneratorAgent.ModelResponse) :
    QuizGeneratorAgent.generate_quiz parse resp = ([], true)
      ↔ (resp.content = none
          ∨ ∃ c, resp.content = some c ∧ parse (QuizGeneratorAgent.stripFence c) = none) := by
  cases hc : resp.content with
  | none => simp [QuizGeneratorAgent.generate_quiz, hc]
  | some c =>
    cases hp : parse (QuizGeneratorAgent.stripFence c) with
    | none => simp [QuizGeneratorAgent.generate_quiz, hc, hp]
    | some q => simp [QuizGeneratorAgent.generate_quiz, hc, hp]

/-- C6: re-running `handle_fetch_content` on a session whose videos and
documentation are already populated issues no external calls and only
performs the transition to `LEARNING`, leaving every other field (videos,
current video index, documentation) unchanged. -/
theorem fetch_content_idempotent (fetchedVideos : List Video) (generatedDocs : String)
    (s : SessionData) (h1 : s.videos ≠ []) (h2 : s.documentation ≠ "") :
    LearningStateMachine.handle_fetch_content fetchedVideos generatedDocs s
      = ({ s with current_step := AppState.learning.value }, []) := by
  simp [LearningStateMachine.handle_fetch_content, h1, h2]

/-- Witness for C6 at a concrete populated session. -/
theorem fetch_content_idempotent_witness :
    samplePopulatedSession.videos ≠ []
    ∧ samplePopulatedSession.documentation ≠ ""
    ∧ LearningStateMachine.handle_fetch_content [] "" samplePopulatedSession
        = ({ samplePopulatedSession with current_step := AppState.learning.value }, []) :=
  ⟨by decide, by decide,
    fetch_content_idempotent [] "" samplePopulatedSession (by decide) (by decide)⟩

/-- C7: once `related_topics` is non-empty, `handle_evaluate` leaves it
unchanged and the only external call in its trace is the feedback call —
the related-topics agent is not invoked again. -/
theorem related_topics_once (feedbackContent : String) (relatedOracle : List String)
    (s : SessionData) (h : s.related_topics ≠ []) :
    (LearningStateMachine.handle_evaluate feedbackContent relatedOracle s).1.related_topics
        = s.related_topics
    ∧ (LearningStateMachine.handle_evaluate feedbackContent relatedOracle s).2
        = [ExtCall.evalFeedback] := by
  have hcond :
      ¬((EvaluatorAgent.evaluate s.quiz s.user_answers s.documentation
            feedbackContent).mastery = true ∧ s.related_topics = []) :=
    fun hc => h hc.2
  by_cases hm :
      (EvaluatorAgent.evaluate s.quiz s.user_answers s.documentation
        feedbackContent).mastery = true <;>
    simp [LearningStateMachine.handle_evaluate, LearningStateMachine.renderRetrySection,
      hcond, hm, h]

/-- Witness for C7 at a concrete session with populated related topics. -/
theorem related_topics_once_witness :
    samplePopulatedSession.related_topics ≠ []
    ∧ ((LearningStateMachine.handle_evaluate "f" ["X"] samplePopulatedSession).1.related_topics
          = samplePopulatedSession.related_topics
        ∧ (LearningStateMachine.handle_evaluate "f" ["X"] samplePopulatedSession).2
            = [ExtCall.evalFeedback]) :=
  ⟨by decide, related_topics_once "f" ["X"] samplePopulatedSession (by decide)⟩

/-- C4: on a failed (non-mastery) evaluation, the weak areas stored into the
session by the retry section are exactly the first at most 3 elements of the
evaluation's `weak_areas` list: a prefix, hence preserving quiz order. -/
theorem retry_stores_weak_areas (feedbackContent : String) (relatedOracle : List String)
    (s : SessionData)
    (h : (EvaluatorAgent.evaluate s.quiz s.user_answers s.documentation feedbackContent).mastery
          = false) :
    (LearningStateMachine.handle_evaluate feedbackContent relatedOracle s).1.weak_areas
        = (EvaluatorAgent.evaluate s.quiz s.user_answers s.documentation
            feedbackContent).weak_areas.take 3
    ∧ (LearningStateMachine.handle_evaluate feedbackContent relatedOracle s).1.weak_areas.length
        ≤ 3
    ∧ (LearningStateMachine.handle_evaluate feedbackContent relatedOracle s).1.weak_areas
          ++ (EvaluatorAgent.evaluate s.quiz s.user_answers s.documentation
              feedbackContent).weak_areas.drop 3
        = (EvaluatorAgent.evaluate s.quiz s.user_answers s.documentation
            feedbackContent).weak_areas := by
  have hstore :
      (LearningStateMachine.handle_evaluate feedbackContent relatedOracle s).1.weak_areas
        = (EvaluatorAgent.evaluate s.quiz s.user_answers s.documentation
            feedbackContent).weak_areas.take 3 := by
    simp [LearningStateMachine.handle_evaluate, LearningStateMachine.renderRetrySection, h]
  refine ⟨hstore, ?_, ?_⟩
  · rw [hstore, List.length_take]
    exact Nat.min_le_left _ _
  · rw [hstore, List.take_append_drop]

theorem evaluate_mastery_def (quiz : List Question) (answers : List (Nat × Int))
    (documentation feedbackContent : String) :
    (EvaluatorAgent.evaluate quiz answers documentation feedbackContent).mastery
      = decide ((80 : ℚ)
          ≤ (EvaluatorAgent.evaluate quiz answers documentation feedbackContent).percentage) :=
  rfl

theorem sampleFail_percentage :
    (EvaluatorAgent.evaluate sampleFailSession.quiz sampleFailSession.user_answers
        sampleFailSession.documentation "f").percentage = 40 := by
  have hloop :
      (EvaluatorAgent.evalLoop sampleFailSession.user_answers
        sampleFailSession.quiz.enum).1 = 2 := rfl
  have hlen : sampleFailSession.quiz.length = 5 := rfl
  norm_num [EvaluatorAgent.evaluate, hloop, hlen]

theorem sampleFail_mastery :
    (EvaluatorAgent.evaluate sampleFailSession.quiz sampleFailSession.user_answers
        sampleFailSession.documentation "f").mastery = false := by
  rw [evaluate_mastery_def, sampleFail_percentage]
  norm_num

/-- Witness for C4 at a concrete failed 2-of-5 attempt. -/
theorem retry_stores_weak_areas_witness :
    (EvaluatorAgent.evaluate sampleFailSession.quiz sampleFailSession.user_answers
        sampleFailSession.documentation "f").mastery = false
    ∧ ((LearningStateMachine.handle_evaluate "f" [] sampleFailSession).1.weak_areas
          = (EvaluatorAgent.evaluate sampleFailSession.quiz sampleFailSession.user_answers
              sampleFailSession.documentation "f").weak_areas.take 3
        ∧ (LearningStateMachine.handle_evaluate "f" [] sampleFailSession).1.weak_areas.length ≤ 3
        ∧ (LearningStateMachine.handle_evaluate "f" [] sampleFailSession).1.weak_areas
              ++ (EvaluatorAgent.evaluate sampleFailSession.quiz sampleFailSession.user_answers
                  sampleFailSession.documentation "f").weak_areas.drop 3
            = (EvaluatorAgent.evaluate sampleFailSession.quiz sampleFailSession.user_answers
                sampleFailSession.documentation "f").weak_areas) :=
  ⟨sampleFail_mastery, retry_stores_weak_areas "f" [] sampleFailSession sampleFail_mastery⟩

/-- C5: the quiz-attempt counter starts at 1 in a fresh session, and a step
of the state machine changes it only in two ways: a failed (non-mastery)
evaluation increments it by exactly 1, and a full session reset (the reset
button or picking a related topic, both of which call `reset_state`) puts it
back to 1; every other event leaves it unchanged. -/
theorem quiz_attempt_counter :
    defaultSession.quiz_attempt = 1
    ∧ ∀ (s : SessionData) (e : LearningStateMachine.Event),
        (LearningStateMachine.step s e).1.quiz_attempt =
          match e with
          | .evaluateEvent feedbackContent _ =>
            if (EvaluatorAgent.evaluate s.quiz s.user_answers s.documentation
                  feedbackContent).mastery
            then s.quiz_attempt else s.quiz_attempt + 1
          | .learnRelatedClick _ => 1
          | .resetClick => 1
          | _ => s.quiz_attempt := by
  refine ⟨rfl, fun s e => ?_⟩
  cases e with
  | evaluateEvent feedbackContent relatedOracle =>
    by_cases hm :
        (EvaluatorAgent.evaluate s.quiz s.user_answers s.documentation
          feedbackContent).mastery = true <;>
      simp [LearningStateMachine.step, LearningStateMachine.handle_evaluate,
        LearningStateMachine.renderRetrySection, hm] <;>
      split <;> rfl
  | fetchContent fetchedVideos generatedDocs =>
    simp only [LearningStateMachine.step, LearningStateMachine.handle_fetch_content]
    split <;> split <;> rfl
  | nextVideoClick =>
    simp only [LearningStateMachine.step, LearningStateMachine.nextVideo]
    split <;> rfl
  | prevVideoClick =>
    simp only [LearningStateMachine.step, LearningStateMachine.prevVideo]
    split <;> rfl
  | _ =>
    simp [LearningStateMachine.step, LearningStateMachine.handle_generate_quiz,
      LearningStateMachine.handle_take_quiz, defaultSession]

/-- Clicking "Next Video" (`stepNext`) never changes the list of videos. -/
theorem stepNext_videos (s : SessionData) :
    (LearningStateMachine.stepNext s).videos = s.videos := by
  show (LearningStateMachine.nextVideo s).videos = s.videos
  unfold LearningStateMachine.nextVideo
  split <;> rfl

/-- After `N` "Next Video" clicks from index 0 the session still holds the
same videos and its index is `N mod L` (Python `%`, embedded as `Int.emod`). -/
theorem stepNext_iterate (s : SessionData) (N : Nat) (h : s.videos ≠ [])
    (h0 : s.current_video_index = 0) :
    (LearningStateMachine.stepNext^[N] s).videos = s.videos
    ∧ (LearningStateMachine.stepNext^[N] s).current_video_index
        = (N : ℤ) % (s.videos.length : ℤ) := by
  induction N with
  | zero =>
    refine ⟨rfl, ?_⟩
    simp [h0]
  | succ n ih =>
    obtain ⟨hv, hi⟩ := ih
    rw [Function.iterate_succ_apply']
    have hne : (LearningStateMachine.stepNext^[n] s).videos ≠ [] := by rw [hv]; exact h
    refine ⟨by rw [stepNext_videos, hv], ?_⟩
    show (LearningStateMachine.nextVideo _).current_video_index = _
    unfold LearningStateMachine.nextVideo
    rw [if_neg hne]
    show ((LearningStateMachine.stepNext^[n] s).current_video_index + 1)
        % ((LearningStateMachine.stepNext^[n] s).videos.length : ℤ) = _
    rw [hi, hv]
    push_cast
    exact Int.emod_add_emod _ _ _

/-- C8: with a non-empty video list of length `L` and starting index 0,
`N` "Next Video" operations leave the index at `N mod L`; one "Previous
Video" operation from index 0 yields `L - 1`; and the index stays within
`[0, L)`. -/
theorem video_navigation (s : SessionData) (N : Nat) (h : s.videos ≠ [])
    (h0 : s.current_video_index = 0) :
    (LearningStateMachine.stepNext^[N] s).current_video_index
        = (N : ℤ) % (s.videos.length : ℤ)
    ∧ (LearningStateMachine.prevVideo s).current_video_index
        = (s.videos.length : ℤ) - 1
    ∧ 0 ≤ (LearningStateMachine.stepNext^[N] s).current_video_index
    ∧ (LearningStateMachine.stepNext^[N] s).current_video_index
        < (s.videos.length : ℤ) := by
  have hL : 0 < (s.videos.length : ℤ) := by
    have := List.length_pos.mpr h
    exact_mod_cast this
  obtain ⟨hv, hi⟩ := stepNext_iterate s N h h0
  refine ⟨hi, ?_, ?_, ?_⟩
  · show (LearningStateMachine.prevVideo s).current_video_index = _
    unfold LearningStateMachine.prevVideo
    rw [if_neg h]
    show (s.current_video_index - 1) % (s.videos.length : ℤ) = _
    rw [h0]
    have hrw : (0 : ℤ) - 1
        = ((s.videos.length : ℤ) - 1) + (s.videos.length : ℤ) * (-1) := by ring
    rw [hrw, Int.add_mul_emod_self_left,
      Int.emod_eq_of_lt (by omega) (by omega)]
  · rw [hi]
    exact Int.emod_nonneg _ (by omega)
  · rw [hi]
    exact Int.emod_lt_of_pos _ hL

/-- Witness for C8: two videos, three "next" clicks land on index 1. -/
theorem video_navigation_witness :
    sampleFailSession.videos ≠ []
    ∧ sampleFailSession.current_video_index = 0
    ∧ ((LearningStateMachine.stepNext^[3] sampleFailSession).current_video_index
          = (3 : ℤ) % (sampleFailSession.videos.length : ℤ)
        ∧ (LearningStateMachine.prevVideo sampleFailSession).current_video_index
            = (sampleFailSession.videos.length : ℤ) - 1
        ∧ 0 ≤ (LearningStateMachine.stepNext^[3] sampleFailSession).current_video_index
        ∧ (LearningStateMachine.stepNext^[3] sampleFailSession).current_video_index
            < (sampleFailSession.videos.length : ℤ)) :=
  ⟨by decide, rfl, video_navigation sampleFailSession 3 (by decide) rfl⟩
